import Mathlib

/-!
Verification of the remote-access orchestration layer of the
`notion-task-runner` repository.

The Python sources are shallowly embedded as pure Lean functions:

* the `tenacity` retry decorator (`@retry(stop=stop_after_attempt(n),
  wait=wait_fixed(w))`) becomes `tenacityRetry`, driven by an abstract
  sequence of attempt outcomes and returning the final result together
  with the number of underlying calls performed;
* `NotionDatabase.fetch_rows` (notion/notion_database.py) becomes
  `fetch_rows`, consuming an abstract stream of query responses and
  recording the payload sent with every request;
* `ExportFilePoller` (tasks/download_export/export_file_poller.py)
  becomes `poll_for_download_url` over a stream of poll responses;
* `ExportFileTrigger.trigger_export_task`
  (tasks/download_export/export_file_trigger.py) becomes
  `trigger_export_task`;
* `ExportFileDownloader` (tasks/download_export/export_file_downloader.py)
  becomes `download_and_verify`;
* `TaskRunner.run_async` (task_runner.py) becomes `run_async`, with an
  explicit invocation log so that "each task runs exactly once" is a
  provable statement;
* `AsyncNotionClient._validate_config` (notion/async_notion_client.py)
  becomes `validate_config`;
* `AsyncNotionClient._ensure_session` under concurrent first use becomes
  a small interleaving state machine (`stepCaller` / `runSchedule`)
  whose atomic steps are the code regions between `await` suspension
  points, following the cooperative scheduling semantics of asyncio.

Dictionaries coming from JSON are embedded as structures holding exactly
the fields the code reads; `Option` models an absent (or JSON-null)
field, matching the Python distinction between `d.get(k)` (total) and
`d[k]` (raises `KeyError`). Python truthiness of strings (empty string
is falsy) is embedded explicitly wherever the code branches on it.
-/

namespace NotionTaskRunner

/-! ## Generic model of the tenacity retry decorator

`@retry(stop=stop_after_attempt(n), wait=wait_fixed(w))` performs the
wrapped operation, returns on success, and on an exception checks the
stop condition: once `n` attempts have been made the last exception is
surfaced (wrapped in `tenacity.RetryError`; with `reraise=True` it is
re-raised as itself). The wait time is irrelevant to the observable
result and is not modelled. The wrapped operation is abstracted as a
function from the attempt index to that attempt's outcome. -/

/-- Result of running a retry-wrapped operation: either the value of the
first successful attempt, or the failure of the last attempt once all
allowed attempts are exhausted. -/
inductive CallResult (ε : Type) (α : Type) where
  | success (value : α)
  | exhausted (lastError : ε)
deriving DecidableEq

/-- The tenacity retry loop. `attempt n` is the outcome of the `n`-th
underlying call (0-based), `made` the number of calls already made, and
the last argument the number of attempts still allowed (the stop
condition `stop_after_attempt` checks only after an attempt has run, so
even with 0 allowed attempts one call is made). Returns the result
together with the total number of underlying calls performed. -/
def tenacityRetry {ε α : Type} (attempt : Nat → Except ε α) (made : Nat) :
    Nat → CallResult ε α × Nat
  | 0 =>
    match attempt made with
    | .ok a => (.success a, made + 1)
    | .error e => (.exhausted e, made + 1)
  | 1 =>
    match attempt made with
    | .ok a => (.success a, made + 1)
    | .error e => (.exhausted e, made + 1)
  | fuel + 2 =>
    match attempt made with
    | .ok a => (.success a, made + 1)
    | .error _ => tenacityRetry attempt (made + 1) (fuel + 1)

/-- Default retry count from constants.py (`DEFAULT_MAX_RETRIES = 3`). -/
def DEFAULT_MAX_RETRIES : Nat := 3

/-- `AsyncNotionClient.post`: one logical POST, retried by the decorator
`@retry(stop=stop_after_attempt(DEFAULT_MAX_RETRIES), wait=...)`. The
underlying HTTP call (session post, error-status check, JSON decoding)
is abstracted as the outcome sequence `attempt`. -/
def post {ε α : Type} (attempt : Nat → Except ε α) : CallResult ε α × Nat :=
  tenacityRetry attempt 0 DEFAULT_MAX_RETRIES

/-- `NotionDatabase._retry_fetch_rows`: wraps one `client.post` call in
`@retry(stop=stop_after_attempt(self.max_retries), wait=...)`. -/
def retry_fetch_rows {ε α : Type} (attempt : Nat → Except ε α)
    (max_retries : Nat) : CallResult ε α × Nat :=
  tenacityRetry attempt 0 max_retries

/-! ## NotionDatabase.fetch_rows (notion/notion_database.py)

The fetch loop builds a payload from the current cursor, posts it,
checks `data.get("status", 200) != 200`, reads `data["results"]`,
extends the accumulator, reads `data.get("next_cursor")` and stops when
that value is falsy. The environment is modelled as the list of
response bodies the server returns to the successive requests. -/

/-- One JSON response body to `POST /databases/{id}/query`, restricted
to the fields `fetch_rows` reads. `α` is the (opaque) row type. -/
structure QueryResponse (α : Type) where
  status : Option Int
  message : Option String
  results : Option (List α)
  next_cursor : Option String
deriving DecidableEq

/-- The JSON payload `NotionDatabase._build_payload` attaches to one
query request: `{}` or `{"start_cursor": cursor}`. -/
inductive Payload where
  | empty
  | startCursor (cursor : String)
deriving DecidableEq

/-- `NotionDatabase._build_payload`: `{"start_cursor": next_cursor} if
next_cursor else {}` — Python truthiness, so `None` and the empty
string both give the empty payload. -/
def build_payload (next_cursor : Option String) : Payload :=
  match next_cursor with
  | none => .empty
  | some c => if c = "" then .empty else .startCursor c

/-- Python truthiness of `next_cursor` as used by `if not next_cursor:
break` — false for `None` and for the empty string. -/
def cursorTruthy : Option String → Bool
  | none => false
  | some c => c != ""

/-- Errors `fetch_rows` can surface, one constructor per raise site:
`ValueError` for a missing database id, `KeyError` for a subscript on an
absent field, `aiohttp.ClientError` built by the error-envelope check
(carrying the embedded status and message), and the transport failure
surfaced by `_retry_fetch_rows` when the request itself keeps failing. -/
inductive FetchError where
  | noDatabaseId
  | keyError (key : String)
  | clientError (status : Int) (message : String)
  | transportError
deriving DecidableEq

/-- The per-response portion of the `fetch_rows` loop body: the envelope
check `if data.get("status", 200) != 200: raise aiohttp.ClientError(
f"... {data['status']} {data['message']}")` (the f-string subscripts
`message`, raising `KeyError` when it is absent), then the subscript
`data["results"]`, then `data.get("next_cursor")`. -/
def read_response {α : Type} (data : QueryResponse α) :
    Except FetchError (List α × Option String) :=
  if data.status.getD 200 ≠ 200 then
    match data.message with
    | some msg =>
      match data.status with
      | some st => .error (.clientError st msg)
      | none => .error (.keyError "status")
    | none => .error (.keyError "message")
  else
    match data.results with
    | none => .error (.keyError "results")
    | some rows => .ok (rows, data.next_cursor)

/-- The `while True` pagination loop of `fetch_rows`. `cursor` is the
current `next_cursor` value, the list holds the response bodies the
server will return to the successive requests (an empty list means the
next request fails at the transport layer). Returns the accumulated
rows together with the payloads sent, in request order. -/
def fetch_rows_go {α : Type} (cursor : Option String) :
    List (QueryResponse α) → Except FetchError (List α × List Payload)
  | [] => .error .transportError
  | data :: rest =>
    match read_response data with
    | .error e => .error e
    | .ok (rows, nc) =>
      if cursorTruthy nc then
        match fetch_rows_go nc rest with
        | .error e => .error e
        | .ok (more, payloads) =>
          .ok (rows ++ more, build_payload cursor :: payloads)
      else
        .ok (rows, [build_payload cursor])

/-- `NotionDatabase.fetch_rows`: guard `if not database_id: raise
ValueError`, then the pagination loop starting with no cursor. -/
def fetch_rows {α : Type} (database_id : String)
    (responses : List (QueryResponse α)) :
    Except FetchError (List α × List Payload) :=
  if database_id = "" then .error .noDatabaseId
  else fetch_rows_go none responses

/-- A well-formed page response: no error envelope, a `results` array,
and the given cursor. -/
def okPage {α : Type} (rows : List α) (cursor : Option String) :
    QueryResponse α :=
  ⟨none, none, some rows, cursor⟩

/-! ## ExportFilePoller (tasks/download_export/export_file_poller.py) -/

/-- One element of the `edits` array of an activity node; the code only
reads its optional `link` field. -/
structure ActivityEdit where
  link : Option String
deriving DecidableEq

/-- An activity node (the `value` of one entry of the activity map):
the code reads `start_time` (subscript, but every claim supplies it) and
`edits` via `node.get("edits", [{}])`. -/
structure ActivityNode where
  start_time : Int
  edits : Option (List ActivityEdit)
deriving DecidableEq

/-- One response body of `getNotificationLogV2`, reduced to what
`_extract_activity_node` reads: the values of
`response.get("recordMap", {}).get("activity")` in iteration order
(each already projected to its `value` field). `none` models both a
missing `recordMap` and a missing `activity` key. -/
structure PollResponse where
  activity : Option (List ActivityNode)
deriving DecidableEq

/-- The distinct poll failures, one constructor per raise site of the
poller: `NoActivityError`, `StaleExportError`, `MissingExportLinkError`,
the `IndexError` raised by `[0]` on an empty `edits` list, and a failure
of the status-check call itself. -/
inductive PollFailure where
  | noActivity
  | staleExport
  | missingExportLink
  | indexError
  | transportError
deriving DecidableEq

/-- `ExportFilePoller._extract_activity_node`: `if not activity_map:
raise NoActivityError` (so both an absent map and an empty map reject),
else the first value of the map. -/
def extract_activity_node (r : PollResponse) : Option ActivityNode :=
  match r.activity with
  | none => none
  | some [] => none
  | some (node :: _) => some node

/-- `ExportFilePoller._get_export_link`: reject the node as stale when
`start_time` precedes the trigger timestamp; otherwise read
`node.get("edits", [{}])[0].get("link")` and reject when that value is
falsy (absent link or empty string), returning the link otherwise. -/
def get_export_link (node : ActivityNode)
    (export_trigger_timestamp : Int) : Except PollFailure String :=
  if node.start_time < export_trigger_timestamp then
    .error .staleExport
  else
    match node.edits with
    | none => .error .missingExportLink
    | some [] => .error .indexError
    | some (e :: _) =>
      match e.link with
      | none => .error .missingExportLink
      | some l => if l = "" then .error .missingExportLink else .ok l

/-- `ExportFilePoller._try_get_download_url` for one response body:
extract the activity node, then classify it. -/
def try_get_download_url (export_trigger_timestamp : Int)
    (r : PollResponse) : Except PollFailure String :=
  match extract_activity_node r with
  | none => .error .noActivity
  | some node => get_export_link node export_trigger_timestamp

/-- Result of the whole poll loop: the link found by the first accepted
attempt, or the failure of the last attempt after exhaustion; in both
cases with the number of poll calls made. -/
inductive PollResult where
  | found (link : String) (calls : Nat)
  | exhausted (lastFailure : PollFailure) (calls : Nat)
deriving DecidableEq

/-- The outcome of one poll attempt against the remaining response
stream: an empty stream models a status-check call that fails at the
transport layer (also retried, via the generic exception handler). -/
def poll_attempt (export_trigger_timestamp : Int) :
    List PollResponse → Except PollFailure String
  | [] => .error .transportError
  | r :: _ => try_get_download_url export_trigger_timestamp r

/-- The tenacity loop inside `poll_for_download_url`, specialised to
the poll attempt: every `PollFailure` is raised and hence retried, a
returned link stops the loop. Each retry consumes one response from the
stream. -/
def poll_go (export_trigger_timestamp : Int) (made : Nat)
    (responses : List PollResponse) : Nat → PollResult
  | 0 =>
    match poll_attempt export_trigger_timestamp responses with
    | .ok l => .found l (made + 1)
    | .error e => .exhausted e (made + 1)
  | 1 =>
    match poll_attempt export_trigger_timestamp responses with
    | .ok l => .found l (made + 1)
    | .error e => .exhausted e (made + 1)
  | fuel + 2 =>
    match poll_attempt export_trigger_timestamp responses with
    | .ok l => .found l (made + 1)
    | .error _ =>
      poll_go export_trigger_timestamp (made + 1) responses.tail (fuel + 1)

/-- `ExportFilePoller.poll_for_download_url`: the retry-wrapped poll
loop started with no calls made. -/
def poll_for_download_url (export_trigger_timestamp : Int)
    (responses : List PollResponse) (maxAttempts : Nat) : PollResult :=
  poll_go export_trigger_timestamp 0 responses maxAttempts

/-! ## ExportFileTrigger (tasks/download_export/export_file_trigger.py) -/

/-- One response body of `enqueueTask`, reduced to the fields the
trigger reads: `taskId`, and the error-envelope fields `name` and
`message` that are only logged. -/
structure TriggerResponse where
  taskId : Option String
  errName : Option String
  message : Option String
deriving DecidableEq

/-- Errors of the trigger path. `transport n` is an underlying HTTP
failure (these are raised, retried, and with `reraise=True` re-raised
after exhaustion). `envelope` is what a *propagated* error envelope
would look like — the code never constructs it, which is exactly what
the counterexample for the trigger claim exhibits. -/
inductive TriggerError where
  | transport (code : Nat)
  | envelope (errName : String) (message : String)
deriving DecidableEq

/-- Log events emitted by `trigger_export_task` for a response without
a `taskId`: the generic error line, plus the extra invalid-token hint
iff `response.get("name") == "UnauthorizedError"`. -/
inductive TriggerLogEvent where
  | errorEnvelope (errName : Option String) (message : Option String)
  | unauthorizedHint
deriving DecidableEq

/-- The body of `_do_trigger` after a successful POST: `if "taskId" not
in response: ... return None` (no exception, identical for every
envelope), else `return response["taskId"]`. -/
def handle_trigger_response (r : TriggerResponse) : Option String :=
  match r.taskId with
  | none => none
  | some tid => some tid

/-- The log lines of `_do_trigger` on one response body. -/
def trigger_logs (r : TriggerResponse) : List TriggerLogEvent :=
  match r.taskId with
  | some _ => []
  | none =>
    if r.errName = some "UnauthorizedError" then
      [.errorEnvelope r.errName r.message, .unauthorizedHint]
    else
      [.errorEnvelope r.errName r.message]

/-- `ExportFileTrigger.trigger_export_task`: `_do_trigger` wrapped in
`@retry(stop=stop_after_attempt(max_retries), wait=..., reraise=True)`.
`responses n` is the outcome of the `n`-th underlying POST; a returned
body (even an error envelope) is a successful attempt, so only
transport failures are retried. -/
def trigger_export_task
    (responses : Nat → Except TriggerError TriggerResponse)
    (max_retries : Nat) : CallResult TriggerError (Option String) × Nat :=
  tenacityRetry (fun n => (responses n).map handle_trigger_response)
    0 max_retries

/-! ## ExportFileDownloader (tasks/download_export/export_file_downloader.py) -/

/-- What `download_and_verify` can observe about the destination path
after a download attempt: the result of `Path.is_file()` and the size
of the file in bytes. The code never reads the size. -/
structure FileState where
  isFile : Bool
  size : Nat
deriving DecidableEq

/-- `ExportFileDownloader.download_and_verify` composed with
`_download_file`: the chunk-streaming attempt (abstracted as `attempt`,
whose error is any exception raised during the request or the writes)
is retried `max_retries` times; exhaustion is caught and turned into
`None`; a returned path is then checked with `if not downloaded or not
downloaded.is_file(): return None`. Returns the verified path state (if
any) and the number of download attempts. -/
def download_and_verify (attempt : Nat → Except String FileState)
    (max_retries : Nat) : Option FileState × Nat :=
  match tenacityRetry attempt 0 max_retries with
  | (.success fs, k) => (if fs.isFile then some fs else none, k)
  | (.exhausted _, k) => (none, k)

/-! ## TaskRunner.run_async (task_runner.py)

`asyncio.gather(*[task.run() for task in self.tasks],
return_exceptions=True)` awaits every coroutine exactly once and
captures raised exceptions as result values instead of propagating
them. The embedding threads an explicit invocation log: running task
`i` appends `i` to the log and yields the task's outcome. -/

/-- The outcome of one task body: normal return or a raised exception
(carrying its message). -/
abbrev TaskOutcome := Except String Unit

/-- Whether an outcome counts as a success in the summary loop
(`isinstance(result, Exception)` selects the failures). -/
def outcomeOk : TaskOutcome → Bool
  | .ok _ => true
  | .error _ => false

/-- The run summary logged at the end of `run_async`. -/
structure RunSummary where
  successful_tasks : Nat
  failed_tasks : Nat
  total_tasks : Nat
deriving DecidableEq

/-- `asyncio.gather` with `return_exceptions=True` over the tasks from
index `k` on: invoke each task exactly once in order — recording its
index in the invocation log — and collect every outcome, continuing
past failures instead of propagating them. -/
def gatherReturnExceptions (k : Nat) :
    List TaskOutcome → List Nat × List TaskOutcome
  | [] => ([], [])
  | outcome :: rest =>
    let (idxs, results) := gatherReturnExceptions (k + 1) rest
    (k :: idxs, outcome :: results)

/-- `TaskRunner.run_async`: gather all task outcomes, then count
successes and failures (`TaskRunner.run` performs the same count over
`concurrent.futures` results). Returns the invocation log and the
summary; the function is total — no task failure escapes it. -/
def run_async (outcomes : List TaskOutcome) : List Nat × RunSummary :=
  let (log, results) := gatherReturnExceptions 0 outcomes
  (log,
   ⟨(results.filter (fun r => outcomeOk r)).length,
    (results.filter (fun r => !outcomeOk r)).length,
    outcomes.length⟩)

/-! ## AsyncNotionClient._validate_config (notion/async_notion_client.py) -/

/-- The three credential fields of `TaskConfig` that
`_validate_config` inspects. -/
structure TaskConfig where
  notion_token_v2 : String
  notion_api_key : String
  notion_space_id : String
deriving DecidableEq

/-- The eight disallowed characters of `_validate_config`
(`Char.ofNat 39` is the single-quote character). -/
def suspicious_chars : List Char :=
  ['<', '>', '"', Char.ofNat 39, '&', '\n', '\r', '\t']

/-- Whether a field contains one of the disallowed characters
(`char in value` per character, i.e. character membership). -/
def hasSuspiciousChar (s : String) : Bool :=
  s.data.any (fun c => suspicious_chars.contains c)

/-- `AsyncNotionClient._validate_config`, as a pure predicate: `true`
iff the function raises `ValueError`. It checks all three fields for
presence (`not value`, i.e. emptiness) and minimum length 10, but runs
the disallowed-character loop only over `notion_token_v2` and
`notion_api_key`. -/
def validate_config (c : TaskConfig) : Bool :=
  (c.notion_token_v2 == "" || c.notion_token_v2.length < 10) ||
  (c.notion_api_key == "" || c.notion_api_key.length < 10) ||
  (c.notion_space_id == "" || c.notion_space_id.length < 10) ||
  hasSuspiciousChar c.notion_token_v2 ||
  hasSuspiciousChar c.notion_api_key

/-! ## AsyncNotionClient._ensure_session under concurrent first use

asyncio runs a coroutine without preemption between `await` suspension
points. `_ensure_session` checks `self._session is None or closed` and,
if so, calls `_create_authenticated_session`, which assigns
`self._session` *synchronously* and only then suspends at the handshake
POST (`await self._session.post(".../loadUserContent")`); the header
update after the response is the next synchronous region. Each caller
is therefore a two-step program: an atomic check-and-create step and a
handshake-completion step, with arbitrary interleaving between
callers. -/

/-- Lifecycle of the shared `_session` attribute: not yet assigned,
assigned with the handshake still in flight, or fully authenticated
(headers updated). It never goes backwards during first use. -/
inductive SessionPhase where
  | absent
  | created
  | authenticated
deriving DecidableEq

/-- Program counter of one `_ensure_session` caller: before its check,
suspended at the handshake `await`, or returned (recording the session
phase it observed at return). -/
inductive CallerPC where
  | start
  | waiting
  | done (observed : SessionPhase)
deriving DecidableEq

/-- Shared state of the race: the session phase, the number of
handshake POSTs issued, and each caller's program counter. -/
structure RaceState where
  sessionPhase : SessionPhase
  handshakes : Nat
  callers : List CallerPC
deriving DecidableEq

/-- One atomic step of caller `i` (a no-op for a finished caller or an
out-of-range index). From `start`: if the session is absent, assign the
session object, issue the handshake POST and suspend; otherwise return
at once with whatever phase the session is in — the code has no wait on
the handshake in flight. From `waiting`: the handshake response
arrives, the headers are updated, the caller returns. -/
def stepCaller (s : RaceState) (i : Nat) : RaceState :=
  match s.callers.get? i with
  | none => s
  | some pc =>
    match pc with
    | .done _ => s
    | .start =>
      match s.sessionPhase with
      | .absent =>
        { sessionPhase := .created, handshakes := s.handshakes + 1,
          callers := s.callers.set i .waiting }
      | phase =>
        { s with callers := s.callers.set i (.done phase) }
    | .waiting =>
      { sessionPhase := .authenticated, handshakes := s.handshakes,
        callers := s.callers.set i (.done .authenticated) }

/-- Run an interleaving: the schedule lists which caller steps next. -/
def runSchedule (s : RaceState) : List Nat → RaceState
  | [] => s
  | i :: rest => runSchedule (stepCaller s i) rest

/-- Initial first-use state for `n` concurrent callers: no session, no
handshake issued, every caller before its check. -/
def initRace (n : Nat) : RaceState :=
  ⟨.absent, 0, List.replicate n .start⟩

/-- The invariant of the race: either nothing has happened (session
absent, no handshake, every caller still at `start`), or the session
object exists and exactly one handshake has been issued. -/
def RaceInv (s : RaceState) : Prop :=
  (s.sessionPhase = .absent ∧ s.handshakes = 0 ∧
    ∀ pc ∈ s.callers, pc = CallerPC.start) ∨
  (s.sessionPhase ≠ .absent ∧ s.handshakes = 1)

/-! ## Shared retry lemmas -/

/-- A retry-wrapped operation whose next attempt succeeds returns that
value after exactly one more underlying call, whatever the budget. -/
theorem tenacityRetry_ok {ε α : Type} (attempt : Nat → Except ε α)
    (made : Nat) (a : α) (h : attempt made = .ok a) (fuel : Nat) :
    tenacityRetry attempt made fuel = (.success a, made + 1) := by
  match fuel with
  | 0 => simp [tenacityRetry, h]
  | 1 => simp [tenacityRetry, h]
  | n + 2 => simp [tenacityRetry, h]

/-- A retry-wrapped operation that fails on every attempt consumes its
whole budget and surfaces the failure of the last attempt. -/
theorem tenacityRetry_exhausted {ε α : Type} (attempt : Nat → Except ε α)
    (err : Nat → ε) (h : ∀ n, attempt n = .error (err n)) :
    ∀ fuel made, tenacityRetry attempt made (fuel + 1) =
      (.exhausted (err (made + fuel)), made + fuel + 1) := by
  intro fuel
  induction fuel with
  | zero => intro made; simp [tenacityRetry, h made]
  | succ m ih =>
    intro made
    have hrec := ih (made + 1)
    have e1 : made + 1 + m = made + (m + 1) := by omega
    rw [e1] at hrec
    simp [tenacityRetry, h made, hrec]

/-! ## Claim C3 -/

/-- Claim C3: a logical request that fails on every attempt makes the
retrying executor perform exactly `maxAttempts` underlying calls — both
for `NotionDatabase._retry_fetch_rows` with its configured bound and
for `AsyncNotionClient.post` with the default bound of 3 — and the
surfaced result is the last underlying error wrapped in the
retries-exhausted constructor. -/
theorem retry_bound {ε α : Type} (attempt : Nat → Except ε α)
    (err : Nat → ε) (h : ∀ n, attempt n = .error (err n))
    (maxAttempts : Nat) (hm : 1 ≤ maxAttempts) :
    retry_fetch_rows attempt maxAttempts =
      (.exhausted (err (maxAttempts - 1)), maxAttempts) ∧
    post attempt = (.exhausted (err 2), 3) := by
  obtain ⟨f, rfl⟩ : ∃ f, maxAttempts = f + 1 := ⟨maxAttempts - 1, by omega⟩
  constructor
  · have hx := tenacityRetry_exhausted attempt err h f 0
    simpa [retry_fetch_rows] using hx
  · have hx := tenacityRetry_exhausted attempt err h 2 0
    simpa [post, DEFAULT_MAX_RETRIES] using hx

/-- Witness for C3: an operation failing with error `n` at attempt `n`
exhausts the default budget after exactly 3 calls, surfacing error 2. -/
theorem retry_bound_witness :
    post (fun n => (Except.error n : Except Nat Unit)) =
      (CallResult.exhausted 2, 3) :=
  (retry_bound (fun n => Except.error n) (fun n => n) (fun _ => rfl)
    3 (by omega)).2

/-! ## Claim C1 -/

/-- The pagination loop over well-formed pages with non-empty cursors:
one request per page, each request carrying the previous cursor, and
the rows concatenated in arrival order. -/
theorem fetch_rows_go_pages {α : Type} (pages : List (List α × String))
    (lastRows : List α) (cursor : Option String)
    (hcur : ∀ p ∈ pages, p.2 ≠ "") :
    fetch_rows_go cursor
        (pages.map (fun p => okPage p.1 (some p.2)) ++ [okPage lastRows none]) =
      .ok ((pages.map Prod.fst).flatten ++ lastRows,
        build_payload cursor :: pages.map (fun p => Payload.startCursor p.2)) := by
  induction pages generalizing cursor with
  | nil =>
    simp [fetch_rows_go, read_response, okPage, cursorTruthy]
  | cons p ps ih =>
    have hp : p.2 ≠ "" := hcur p (by simp)
    have hps : ∀ q ∈ ps, q.2 ≠ "" := fun q hq => hcur q (by simp [hq])
    have hrec := ih (some p.2) hps
    simp only [okPage] at hrec
    simp [fetch_rows_go, read_response, okPage, cursorTruthy, hp, hrec,
      build_payload]

/-- Claim C1 (amended): for every sequence of page responses in which
each response carries a `results` array and a non-null *and non-empty*
cursor except the last (whose cursor is null or absent),
`NotionDatabase.fetch_rows` returns the concatenation of all pages'
results in arrival order and issues exactly N query requests, sending
the empty payload first and page k's cursor as `start_cursor` in
request k+1. (The amendment: by Python truthiness, a non-null but
empty-string cursor also terminates the loop, see the counterexample.) -/
theorem fetch_rows_pagination {α : Type} (database_id : String)
    (hid : database_id ≠ "") (pages : List (List α × String))
    (lastRows : List α) (hcur : ∀ p ∈ pages, p.2 ≠ "") :
    fetch_rows database_id
        (pages.map (fun p => okPage p.1 (some p.2)) ++ [okPage lastRows none]) =
      .ok ((pages.map Prod.fst).flatten ++ lastRows,
        Payload.empty :: pages.map (fun p => Payload.startCursor p.2)) ∧
    (Payload.empty :: pages.map (fun p => Payload.startCursor p.2)).length =
      (pages.map (fun p => okPage p.1 (some p.2)) ++ [okPage lastRows none]).length := by
  constructor
  · have hx := fetch_rows_go_pages pages lastRows none hcur
    simpa [fetch_rows, hid, build_payload] using hx
  · simp

/-- Witness for C1: the two-page example — first page `[1]` with cursor
`"c1"`, second page `[2]` with null cursor — yields `[1, 2]` via
exactly two requests, the second carrying `start_cursor = "c1"`. -/
theorem fetch_rows_pagination_witness :
    fetch_rows "db-1" [okPage [(1 : Nat)] (some "c1"), okPage [2] none] =
      .ok ([1, 2], [Payload.empty, Payload.startCursor "c1"]) := by
  have h := (fetch_rows_pagination "db-1" (by decide)
    [([(1 : Nat)], "c1")] [2] (by decide)).1
  simpa using h

/-- Claim C1 counterexample: a first page carrying the non-null cursor
`""` is treated as terminal — `fetch_rows` stops after one request and
returns only the first page, not the concatenation of both. -/
theorem fetch_rows_empty_cursor_counterexample :
    fetch_rows "db-1" [okPage [(1 : Nat)] (some ""), okPage [2] none] =
      .ok ([1], [Payload.empty]) ∧
    [(1 : Nat)] ≠ [1, 2] ∧ [Payload.empty].length ≠ 2 := by
  refine ⟨rfl, by decide, by decide⟩

/-! ## Claim C5 -/

/-- Claim C5 (amended): whenever the pagination loop meets a response
lacking the `results` field — at any point of the pagination, whatever
responses follow — it raises an error, so the reply is never treated as
an empty page; when the response does not carry an error-envelope
status the raised error is exactly the structural `KeyError("results")`
(with an error-envelope status the domain-envelope raise fires first,
see the counterexample). -/
theorem fetch_rows_missing_results {α : Type} (data : QueryResponse α)
    (hres : data.results = none) (cursor : Option String)
    (rest : List (QueryResponse α)) :
    (∃ e, fetch_rows_go cursor (data :: rest) = .error e) ∧
    (data.status.getD 200 = 200 →
      fetch_rows_go cursor (data :: rest) = .error (.keyError "results")) := by
  constructor
  · by_cases hst : data.status.getD 200 = 200
    · exact ⟨.keyError "results",
        by simp [fetch_rows_go, read_response, hst, hres]⟩
    · cases hmsg : data.message with
      | none =>
        exact ⟨.keyError "message",
          by simp [fetch_rows_go, read_response, hst, hmsg]⟩
      | some msg =>
        cases hs : data.status with
        | none => exact (hst (by simp [hs])).elim
        | some st =>
          have hstne : st ≠ 200 := by simpa [hs] using hst
          exact ⟨.clientError st msg,
            by simp [fetch_rows_go, read_response, hst, hmsg, hs, hstne]⟩
  · intro hst
    simp [fetch_rows_go, read_response, hst, hres]

/-- Witness for C5: the all-absent response body raises
`KeyError("results")`. -/
theorem fetch_rows_missing_results_witness :
    fetch_rows_go none [(⟨none, none, none, none⟩ : QueryResponse Nat)] =
      .error (.keyError "results") :=
  (fetch_rows_missing_results ⟨none, none, none, none⟩ rfl none []).2 rfl

/-- Claim C5 counterexample: a response lacking `results` that also
carries an error envelope raises the domain `aiohttp.ClientError`
(the envelope check runs first), not a structural error — so "a
response lacking `results` raises a structural error" does not hold
for every such response. -/
theorem fetch_rows_missing_results_counterexample :
    fetch_rows "db-1"
        [(⟨some 500, some "Internal Server Error", none, none⟩ :
          QueryResponse Nat)] =
      .error (.clientError 500 "Internal Server Error") ∧
    FetchError.clientError 500 "Internal Server Error" ≠
      FetchError.keyError "results" := by
  refine ⟨rfl, by decide⟩

/-! ## Claim C6 -/

/-- Claim C6 (amended): for every query response whose body carries a
`status` field other than 200 *together with a `message` field*,
`fetch_rows` raises the domain error carrying the embedded status code
and message; that error is a constructor distinct from a
transport-level failure, and no rows from the response are appended —
the call never returns a row list. (The amendment: with the `message`
field absent the f-string building the error subscripts it and raises
`KeyError("message")` instead, see the counterexample.) -/
theorem fetch_rows_error_envelope {α : Type} (data : QueryResponse α)
    (st : Int) (hst : data.status = some st) (hne : st ≠ 200)
    (msg : String) (hmsg : data.message = some msg)
    (cursor : Option String) (rest : List (QueryResponse α)) :
    fetch_rows_go cursor (data :: rest) = .error (.clientError st msg) ∧
    FetchError.clientError st msg ≠ FetchError.transportError ∧
    ∀ out, fetch_rows_go cursor (data :: rest) ≠ .ok out := by
  have h1 : fetch_rows_go cursor (data :: rest) =
      .error (.clientError st msg) := by
    simp [fetch_rows_go, read_response, hst, hmsg, hne]
  exact ⟨h1, by simp, fun out hout => by simp [h1] at hout⟩

/-- Witness for C6: the envelope `status 503, message "overloaded"`
raises the domain error carrying 503 and "overloaded", even though the
response also has a `results` array. -/
theorem fetch_rows_error_envelope_witness :
    fetch_rows_go none
        [(⟨some 503, some "overloaded", some [(1 : Nat)], none⟩ :
          QueryResponse Nat)] =
      .error (.clientError 503 "overloaded") :=
  (fetch_rows_error_envelope ⟨some 503, some "overloaded", some [1], none⟩
    503 rfl (by decide) "overloaded" rfl none []).1

/-- Claim C6 counterexample: a body with `status 400` but no `message`
field makes the error f-string raise `KeyError("message")` — not a
domain error carrying the embedded status code and message. -/
theorem fetch_rows_error_envelope_counterexample :
    fetch_rows "db-1"
        [(⟨some 400, none, some [(1 : Nat)], none⟩ : QueryResponse Nat)] =
      .error (.keyError "message") ∧
    FetchError.keyError "message" ≠
      FetchError.clientError 400 "validation_error" := by
  refine ⟨rfl, by decide⟩

/-! ## Claim C2 -/

/-- A poll attempt that returns a link stops the loop at once, whatever
the remaining budget. -/
theorem poll_go_ok (ts : Int) (made : Nat) (responses : List PollResponse)
    (l : String) (h : poll_attempt ts responses = .ok l) (fuel : Nat) :
    poll_go ts made responses fuel = .found l (made + 1) := by
  match fuel with
  | 0 => simp [poll_go, h]
  | 1 => simp [poll_go, h]
  | n + 2 => simp [poll_go, h]

/-- A rejected poll attempt with budget remaining continues the loop on
the rest of the response stream. -/
theorem poll_go_error_step (ts : Int) (made : Nat)
    (responses : List PollResponse) (e : PollFailure)
    (h : poll_attempt ts responses = .error e) (fuel : Nat) :
    poll_go ts made responses (fuel + 2) =
      poll_go ts (made + 1) responses.tail (fuel + 1) := by
  simp [poll_go, h]

/-- Claim C2: for a poll response carrying an activity node — when the
node's `start_time` is strictly below the trigger timestamp the attempt
is rejected as stale and the loop retries on the remaining stream, even
if the node carries a valid link; when the node is fresh and the first
element of `edits` carries a (truthy) link the loop terminates at that
very attempt and returns exactly that link; when the node is fresh but
the link is absent (or falsy) the attempt is rejected as missing-link
and retried. -/
theorem poll_classification (ts : Int) (r : PollResponse)
    (node : ActivityNode) (hnode : extract_activity_node r = some node)
    (rest : List PollResponse) (fuel : Nat) :
    (node.start_time < ts →
      try_get_download_url ts r = .error .staleExport ∧
      poll_go ts 0 (r :: rest) (fuel + 2) = poll_go ts 1 rest (fuel + 1)) ∧
    (ts ≤ node.start_time →
      (∀ e es l, node.edits = some (e :: es) → e.link = some l → l ≠ "" →
        try_get_download_url ts r = .ok l ∧
        ∀ m, poll_for_download_url ts (r :: rest) m = .found l 1) ∧
      ((node.edits = none ∨
          ∃ e es, node.edits = some (e :: es) ∧
            (e.link = none ∨ e.link = some "")) →
        try_get_download_url ts r = .error .missingExportLink ∧
        poll_go ts 0 (r :: rest) (fuel + 2) = poll_go ts 1 rest (fuel + 1))) := by
  have hurl : try_get_download_url ts r = get_export_link node ts := by
    simp [try_get_download_url, hnode]
  constructor
  · intro hstale
    have hcls : try_get_download_url ts r = .error .staleExport := by
      simp [hurl, get_export_link, hstale]
    exact ⟨hcls, poll_go_error_step ts 0 (r :: rest) PollFailure.staleExport
      (by simp [poll_attempt, hcls]) fuel⟩
  · intro hfresh
    have hge : ¬ node.start_time < ts := not_lt.mpr hfresh
    constructor
    · intro e es l hedits hlink hne
      have hcls : try_get_download_url ts r = .ok l := by
        simp [hurl, get_export_link, hge, hedits, hlink, hne]
      refine ⟨hcls, fun m => ?_⟩
      exact poll_go_ok ts 0 (r :: rest) l (by simp [poll_attempt, hcls]) m
    · intro habsent
      have hcls : try_get_download_url ts r = .error .missingExportLink := by
        rcases habsent with hnoedits | ⟨e, es, hedits, hlink⟩
        · simp [hurl, get_export_link, hge, hnoedits]
        · rcases hlink with hlink | hlink <;>
            simp [hurl, get_export_link, hge, hedits, hlink]
      exact ⟨hcls, poll_go_error_step ts 0 (r :: rest)
        PollFailure.missingExportLink (by simp [poll_attempt, hcls]) fuel⟩

/-- Witness for C2, following the example scenario of the spec with
trigger timestamp 1000: a stale node (time 500) is rejected even though
it carries a valid link; a fresh node (time 1200) without a link is
rejected as missing-link; a fresh node (time 1300) with the link
terminates the loop at its own attempt and returns that link. -/
theorem poll_classification_witness :
    try_get_download_url 1000
        (⟨some [⟨500, some [⟨some "https://x/export.zip"⟩]⟩]⟩ : PollResponse) =
      .error .staleExport ∧
    try_get_download_url 1000
        (⟨some [⟨1200, some [⟨none⟩]⟩]⟩ : PollResponse) =
      .error .missingExportLink ∧
    poll_for_download_url 1000
        [(⟨some [⟨1300, some [⟨some "https://x/export.zip"⟩]⟩]⟩ : PollResponse)]
        500 =
      .found "https://x/export.zip" 1 := by
  refine ⟨?_, ?_, ?_⟩
  · exact ((poll_classification 1000
      (⟨some [⟨500, some [⟨some "https://x/export.zip"⟩]⟩]⟩ : PollResponse)
      ⟨500, some [⟨some "https://x/export.zip"⟩]⟩
      rfl [] 0).1 (by decide)).1
  · exact (((poll_classification 1000
      (⟨some [⟨1200, some [⟨none⟩]⟩]⟩ : PollResponse)
      ⟨1200, some [⟨none⟩]⟩
      rfl [] 0).2 (by decide)).2 (Or.inr ⟨⟨none⟩, [], rfl, Or.inl rfl⟩)).1
  · exact ((((poll_classification 1000
      (⟨some [⟨1300, some [⟨some "https://x/export.zip"⟩]⟩]⟩ : PollResponse)
      ⟨1300, some [⟨some "https://x/export.zip"⟩]⟩
      rfl [] 0).2 (by decide)).1 ⟨some "https://x/export.zip"⟩ []
      "https://x/export.zip" rfl rfl (by decide)).2) 500

/-! ## Claim C7 -/

/-- Claim C7 (amended): for every enqueue response without a `taskId`,
`trigger_export_task` returns `None` from the first call with no retry
and no raised failure — identically for the `UnauthorizedError`
envelope and for any other error envelope; the two differ only in the
extra invalid-token log line emitted for `UnauthorizedError`. On a
response containing `taskId` the task identifier is returned. In no
case does this phase poll: the result is a function of the enqueue
responses alone. (The amendment: the original claim's "propagates any
other error envelope as a generic failure" does not hold — nothing is
propagated, see the counterexample.) -/
theorem trigger_classification (r : TriggerResponse)
    (responses : Nat → Except TriggerError TriggerResponse)
    (h0 : responses 0 = .ok r) (max_retries : Nat) :
    (r.taskId = none →
      trigger_export_task responses max_retries = (.success none, 1) ∧
      (r.errName = some "UnauthorizedError" →
        trigger_logs r = [.errorEnvelope r.errName r.message,
          .unauthorizedHint]) ∧
      (r.errName ≠ some "UnauthorizedError" →
        trigger_logs r = [.errorEnvelope r.errName r.message])) ∧
    (∀ tid, r.taskId = some tid →
      trigger_export_task responses max_retries =
        (.success (some tid), 1)) := by
  have key : ∀ v, handle_trigger_response r = v →
      trigger_export_task responses max_retries = (.success v, 1) := by
    intro v hv
    unfold trigger_export_task
    have hatt : (fun n => (responses n).map handle_trigger_response) 0 =
        .ok v := by simp [h0, Except.map, hv]
    simpa using tenacityRetry_ok _ 0 v hatt max_retries
  constructor
  · intro hnone
    refine ⟨key none (by simp [handle_trigger_response, hnone]), ?_, ?_⟩
    · intro hu; simp [trigger_logs, hnone, hu]
    · intro hu; simp [trigger_logs, hnone, hu]
  · intro tid htid
    exact key (some tid) (by simp [handle_trigger_response, htid])

/-- Witness for C7: a generic error envelope yields `None` after one
call and only the generic log line. -/
theorem trigger_classification_witness :
    trigger_export_task
        (fun _ => Except.ok ⟨none, some "ValidationError", some "bad payload"⟩)
        3 =
      (.success none, 1) ∧
    trigger_logs ⟨none, some "ValidationError", some "bad payload"⟩ =
      [.errorEnvelope (some "ValidationError") (some "bad payload")] := by
  have h := trigger_classification
    ⟨none, some "ValidationError", some "bad payload"⟩
    (fun _ => Except.ok ⟨none, some "ValidationError", some "bad payload"⟩)
    rfl 3
  exact ⟨(h.1 rfl).1, (h.1 rfl).2.2 (by decide)⟩

/-- Claim C7 counterexample: a non-`UnauthorizedError` envelope is not
propagated as a failure — the trigger returns the normal value `None`
after a single call, exactly as for the `UnauthorizedError` envelope,
and that outcome is not an error surfacing of the envelope. -/
theorem trigger_envelope_counterexample :
    trigger_export_task
        (fun _ => Except.ok ⟨none, some "ServiceUnavailable", some "try later"⟩)
        3 =
      (.success none, 1) ∧
    trigger_export_task
        (fun _ => Except.ok ⟨none, some "UnauthorizedError", some "expired"⟩)
        3 =
      (.success none, 1) ∧
    (CallResult.success none : CallResult TriggerError (Option String)) ≠
      CallResult.exhausted (TriggerError.envelope "ServiceUnavailable" "try later") := by
  refine ⟨rfl, rfl, by decide⟩

/-! ## Claim C10 -/

/-- Claim C10 (amended): every file state returned by
`download_and_verify` passed the `is_file` verification — the
destination exists as a regular file (no non-emptiness check is
performed, see the counterexample); and an attempt that raises on every
try is retried exactly `max_retries` times, after which the result is
the non-result `None` rather than a raised error — the error is caught
and swallowed. -/
theorem download_and_verify_spec (attempt : Nat → Except String FileState)
    (max_retries : Nat) :
    (∀ fs k, download_and_verify attempt max_retries = (some fs, k) →
      fs.isFile = true) ∧
    (∀ err : Nat → String, (∀ n, attempt n = .error (err n)) →
      1 ≤ max_retries →
      download_and_verify attempt max_retries = (none, max_retries)) := by
  constructor
  · intro fs k h
    unfold download_and_verify at h
    cases hret : tenacityRetry attempt 0 max_retries with
    | mk res calls =>
      cases res with
      | success v =>
        rw [hret] at h
        by_cases hv : v.isFile
        · simp [hv] at h
          obtain ⟨h1, -⟩ := h
          rw [← h1]
          exact hv
        · simp [hv] at h
      | exhausted e => rw [hret] at h; simp at h
  · intro err herr hm
    obtain ⟨f, rfl⟩ : ∃ f, max_retries = f + 1 := ⟨max_retries - 1, by omega⟩
    have hx := tenacityRetry_exhausted attempt err herr f 0
    simp [download_and_verify, hx]

/-- Witness for C10: an attempt failing every time under the default
budget of 3 yields `None` after exactly 3 calls. -/
theorem download_and_verify_spec_witness :
    download_and_verify (fun _ => Except.error "connection reset") 3 =
      (none, 3) :=
  (download_and_verify_spec (fun _ => Except.error "connection reset") 3).2
    (fun _ => "connection reset") (fun _ => rfl) (by omega)

/-- Claim C10 counterexample: a download attempt that succeeds but
writes zero bytes passes verification — the destination is a regular
file of size 0 and `download_and_verify` returns it instead of
rejecting it as empty, so the claimed non-emptiness verification does
not exist. -/
theorem download_empty_file_counterexample :
    download_and_verify (fun _ => Except.ok ⟨true, 0⟩) 3 =
      (some ⟨true, 0⟩, 1) ∧
    (FileState.mk true 0).size = 0 := by
  refine ⟨rfl, rfl⟩

/-! ## Claim C4 -/

/-- The gather fan-out invokes the tasks in index order, once each, and
returns every outcome. -/
theorem gatherReturnExceptions_spec (l : List TaskOutcome) :
    ∀ k, gatherReturnExceptions k l = (List.range' k l.length, l) := by
  induction l with
  | nil => intro k; rfl
  | cons o rest ih =>
    intro k
    simp [gatherReturnExceptions, ih (k + 1), List.range']

/-- Claim C4: the runner invokes each of the N tasks exactly once (its
invocation log is exactly the index sequence 0..N-1, so every index
occurs once, regardless of which outcomes are exceptions), the summary
counts successes and failures over all tasks, the call returns a
summary normally even when every task failed (its type has no error
channel), and in particular the 3-task scenario with task 2 raising
still runs tasks 1 and 3 and reports 2 successes and 1 failure. -/
theorem scheduler_isolation (outcomes : List TaskOutcome) :
    (run_async outcomes).1 = List.range outcomes.length ∧
    (∀ i, i < outcomes.length → (run_async outcomes).1.count i = 1) ∧
    (run_async outcomes).2 =
      ⟨(outcomes.filter (fun r => outcomeOk r)).length,
       (outcomes.filter (fun r => !outcomeOk r)).length,
       outcomes.length⟩ ∧
    run_async [Except.ok (), Except.error "boom", Except.ok ()] =
      ([0, 1, 2], ⟨2, 1, 3⟩) := by
  have hg := gatherReturnExceptions_spec outcomes 0
  have hlog : (run_async outcomes).1 = List.range outcomes.length := by
    simp [run_async, hg, List.range_eq_range']
  refine ⟨hlog, ?_, ?_, ?_⟩
  · intro i hi
    rw [hlog]
    exact List.count_eq_one_of_mem (List.nodup_range _) (List.mem_range.mpr hi)
  · simp [run_async, hg]
  · rfl

/-- Witness for C4: in the 3-task scenario the middle task (the one
that raises) is itself invoked exactly once. -/
theorem scheduler_isolation_witness :
    (run_async [Except.ok (), Except.error "boom", Except.ok ()]).1.count 1 = 1 :=
  (scheduler_isolation [Except.ok (), Except.error "boom", Except.ok ()]).2.1
    1 (by decide)

/-! ## Claim C8 -/

/-- An element found by position is a member of the list. -/
theorem mem_of_get?_eq_some {α : Type} {l : List α} {i : Nat} {a : α}
    (h : l.get? i = some a) : a ∈ l := by
  induction l generalizing i with
  | nil => simp [List.get?] at h
  | cons x xs ih =>
    cases i with
    | zero =>
      have h2 : some x = some a := h
      exact (Option.some.inj h2) ▸ List.mem_cons_self x xs
    | succ j => exact List.mem_cons_of_mem x (ih h)

/-- The initial first-use state satisfies the race invariant. -/
theorem raceInv_init (n : Nat) : RaceInv (initRace n) := by
  left
  refine ⟨rfl, rfl, fun pc hpc => List.eq_of_mem_replicate hpc⟩

/-- Every atomic caller step preserves the race invariant. -/
theorem raceInv_step (s : RaceState) (hs : RaceInv s) (i : Nat) :
    RaceInv (stepCaller s i) := by
  unfold stepCaller
  cases hget : s.callers.get? i with
  | none => exact hs
  | some pc =>
    cases pc with
    | done ph => exact hs
    | start =>
      cases hphase : s.sessionPhase with
      | absent =>
        rcases hs with ⟨-, h0, -⟩ | ⟨hne, -⟩
        · right
          exact ⟨by simp, by simp [h0]⟩
        · exact absurd hphase hne
      | created =>
        rcases hs with ⟨habs, -, -⟩ | ⟨-, h1⟩
        · rw [hphase] at habs; exact absurd habs (by simp)
        · right
          exact ⟨by simp [hphase], by simp [h1]⟩
      | authenticated =>
        rcases hs with ⟨habs, -, -⟩ | ⟨-, h1⟩
        · rw [hphase] at habs; exact absurd habs (by simp)
        · right
          exact ⟨by simp [hphase], by simp [h1]⟩
    | waiting =>
      rcases hs with ⟨-, -, hall⟩ | ⟨-, h1⟩
      · have hmem : CallerPC.waiting ∈ s.callers := mem_of_get?_eq_some hget
        exact absurd (hall _ hmem) (by simp)
      · right
        exact ⟨by simp, by simp [h1]⟩

/-- The race invariant holds after any interleaving. -/
theorem raceInv_run (schedule : List Nat) (s : RaceState) (hs : RaceInv s) :
    RaceInv (runSchedule s schedule) := by
  induction schedule generalizing s with
  | nil => exact hs
  | cons i rest ih => exact ih (stepCaller s i) (raceInv_step s hs i)

/-- Claim C8 (amended): under asyncio cooperative scheduling, any
interleaving of N concurrent first-use `_ensure_session` callers issues
at most one bootstrap handshake POST, and exactly one as soon as any
caller has moved past its initial check — the check-and-create region
runs without suspension, so no second caller can observe an absent
session. (The amendment: the other callers do *not* await the
handshake's completion — a caller arriving while it is in flight
returns immediately with the not-yet-authenticated session, see the
counterexample.) -/
theorem session_singleton_race (n : Nat) (schedule : List Nat) :
    (runSchedule (initRace n) schedule).handshakes ≤ 1 ∧
    ∀ pc ∈ (runSchedule (initRace n) schedule).callers,
      pc ≠ CallerPC.start →
        (runSchedule (initRace n) schedule).handshakes = 1 := by
  have hinv := raceInv_run schedule (initRace n) (raceInv_init n)
  rcases hinv with ⟨-, h0, hall⟩ | ⟨-, h1⟩
  · exact ⟨by omega, fun pc hpc hne => absurd (hall pc hpc) hne⟩
  · exact ⟨by omega, fun _ _ _ => h1⟩

/-- Witness for C8: three concurrent first-use callers under the
interleaving 0, 1, 2, 0 — all three complete and exactly one handshake
was issued. -/
theorem session_singleton_race_witness :
    (runSchedule (initRace 3) [0, 1, 2, 0]).handshakes = 1 :=
  (session_singleton_race 3 [0, 1, 2, 0]).2
    (CallerPC.done .created) (by decide) (by decide)

/-- Claim C8 counterexample: with two concurrent first-use callers,
caller 0 issues the handshake and suspends; caller 1 then runs its
check, sees the session object already assigned, and returns at once —
while the session is still in phase `created`, the handshake neither
completed nor awaited. This falsifies "all other callers await its
completion". -/
theorem session_no_wait_counterexample :
    (runSchedule (initRace 2) [0, 1]).callers.get? 1 =
      some (CallerPC.done .created) ∧
    (runSchedule (initRace 2) [0, 1]).sessionPhase = .created ∧
    SessionPhase.created ≠ SessionPhase.authenticated := by
  refine ⟨rfl, rfl, by decide⟩

/-! ## Claim C9 -/

/-- Claim C9 (amended): the configuration validator fails if and only
if one of the three credential fields is missing (empty) or shorter
than 10 characters, or the legacy session token or the API token
contains a disallowed character — the workspace/space id is *not*
subjected to the disallowed-character check (see the counterexample).
Emptiness is subsumed by the length bound, so the characterization
reduces to length and character conditions. The check is a pure
predicate over the three strings: no I/O is modelled because the
source performs none. -/
theorem validate_config_characterization (c : TaskConfig) :
    validate_config c = true ↔
      (c.notion_token_v2.length < 10 ∨ c.notion_api_key.length < 10 ∨
       c.notion_space_id.length < 10 ∨
       hasSuspiciousChar c.notion_token_v2 = true ∨
       hasSuspiciousChar c.notion_api_key = true) := by
  have h1 : c.notion_token_v2 = "" → c.notion_token_v2.length < 10 := by
    intro hs; rw [hs]; decide
  have h2 : c.notion_api_key = "" → c.notion_api_key.length < 10 := by
    intro hs; rw [hs]; decide
  have h3 : c.notion_space_id = "" → c.notion_space_id.length < 10 := by
    intro hs; rw [hs]; decide
  unfold validate_config
  simp only [Bool.or_eq_true, beq_iff_eq, decide_eq_true_eq]
  tauto

/-- Witness for C9: a too-short token makes validation fail. -/
theorem validate_config_characterization_witness :
    validate_config ⟨"short", "api_key_valid_00", "space_id_12345"⟩ = true :=
  (validate_config_characterization
    ⟨"short", "api_key_valid_00", "space_id_12345"⟩).2 (Or.inl (by decide))

/-- Claim C9 counterexample: a configuration whose space id contains
the disallowed character `<` (and meets the length bound) passes
validation — the validator does not check the space id for disallowed
characters, contradicting the claimed if-and-only-if. -/
theorem validate_config_counterexample :
    validate_config
        ⟨"token_v2_valid_0", "api_key_valid_00", "space<id>12345"⟩ = false ∧
    hasSuspiciousChar "space<id>12345" = true ∧
    10 ≤ "space<id>12345".length := by
  refine ⟨rfl, rfl, by decide⟩

end NotionTaskRunner
